import Mathlib

/-
Shallow embedding of `src/src/index.ts` (MCP Tool-Hub Worker).

The worker exposes one `fetch` entry point that answers CORS preflight,
gates every other request on a shared secret, lazily builds an MCP server
holding three tools (generate_audio, generate_image, translate_text), and
delegates authorized requests to it.  Each tool validates its arguments
against a zod schema and then performs exactly one outbound HTTP call.

Modelling choices:
- HTTP requests/responses are records of the fields the worker reads.
- `url.searchParams.get` and `headers.get` return `Option String`
  (JavaScript `null` becomes `none`); the JS nullish coalescing `??` is
  `Option.orElse`, and JS string truthiness is the explicit `jsStringFalsy`.
- The mutable cache handle `env.__SERVER` is threaded explicitly as an
  `Option McpServer` state; `workerFetch` additionally reports whether
  `buildServer` ran on that request.
- zod schemas become per-tool validators returning `Except String`;
  a JSON number is modelled as `Rat` so that the `.int()` check is real.
- Tool handlers are split into the outbound request they construct
  (`*_request`) and the mapping from the downstream response to the tool
  result (`*_handle`); `call_*` composes validation, request construction
  and response mapping while recording the outbound calls made.
-/

namespace ToolHub

/-- Environment bindings (interface `Env`, index.ts lines 138-151), minus the
mutable cache handle `__SERVER`, which is threaded as explicit state. -/
structure Env where
  HUB_TOKEN : String
  TTS_ENDPOINT : String
  TTS_TOKEN : String
  IMAGE_ENDPOINT : String
  IMAGE_KEY : String
  TRANSLATE_ENDPOINT : String
deriving Repr, DecidableEq

/-- The CORS header constant (index.ts lines 29-34). -/
def CORS_HEADERS : List (String × String) :=
  [("Access-Control-Allow-Origin", "*"),
   ("Access-Control-Allow-Methods", "GET, POST, OPTIONS"),
   ("Access-Control-Allow-Headers", "Content-Type, X-Api-Token"),
   ("Access-Control-Max-Age", "86400")]

/-- An HTTP response as the worker produces it: status, optional body text,
and response headers. -/
structure HttpResponse where
  status : Nat
  body : Option String
  headers : List (String × String)
deriving Repr, DecidableEq

/-- The `json` helper (index.ts lines 36-41): serialize a body with status and
`Content-Type: application/json` plus the CORS headers. -/
def json (data : String) (status : Nat) : HttpResponse :=
  { status := status
    body := some data
    headers := ("Content-Type", "application/json") :: CORS_HEADERS }

/-- Result of `JSON.stringify (\x7b success: false, error: "Unauthorized" \x7d)`
(index.ts line 127). -/
def unauthorizedJson : String :=
  "\x7b\"success\":false,\"error\":\"Unauthorized\"\x7d"

/-! ### Tool registry -/

/-- Declarative description of one zod field schema: a string with optional
min / max / exact length and optional default, or an integer with optional
bounds and optional default. -/
inductive FieldSchema
  | str (minLen maxLen exactLen : Option Nat) (dflt : Option String)
  | intNum (lo hi : Option Int) (dflt : Option Int)
deriving Repr, DecidableEq

/-- Schema of `generate_audio` (index.ts lines 50-54). -/
def generate_audio_schema : List (String × FieldSchema) :=
  [("text", .str (some 1) (some 5000) none none),
   ("voiceId", .str none none none none),
   ("modelId", .str none none none (some "eleven_turbo_v2"))]

/-- Schema of `generate_image` (index.ts lines 77-80). -/
def generate_image_schema : List (String × FieldSchema) :=
  [("prompt", .str (some 1) (some 800) none none),
   ("steps", .intNum (some 1) (some 100) (some 30))]

/-- Schema of `translate_text` (index.ts lines 99-102). -/
def translate_text_schema : List (String × FieldSchema) :=
  [("text", .str (some 1) (some 10000) none none),
   ("targetLang", .str none none (some 2) none)]

/-- A registered tool: its protocol-visible name and argument schema.  The
handler bodies are modelled separately (`generate_audio_handle` etc.),
parameterized by the environment the registration closure captures. -/
structure ToolDef where
  name : String
  schema : List (String × FieldSchema)
deriving Repr, DecidableEq

/-- The MCP server value built by `buildServer`: its metadata and the fixed
tool table registered by the three `mcp.tool` calls. -/
structure McpServer where
  name : String
  version : String
  tools : List ToolDef
deriving Repr, DecidableEq

/-- `buildServer` (index.ts lines 44-114): registers the three tools on a
fresh server.  The tool names and schemas do not depend on `env`; only the
handler closures (modelled separately) read it. -/
def buildServer (_env : Env) : McpServer :=
  { name := "ToolHub"
    version := "1.0.0"
    tools :=
      [⟨"generate_audio", generate_audio_schema⟩,
       ⟨"generate_image", generate_image_schema⟩,
       ⟨"translate_text", translate_text_schema⟩] }

/-! ### Worker entry point -/

/-- The fields of an inbound request that `fetch` reads: the HTTP method, the
`token` query parameter inspected via `url.searchParams.get "token"`, and the
`X-Api-Token` header inspected via `request.headers.get`. -/
structure WRequest where
  method : String
  queryToken : Option String
  headerToken : Option String
deriving Repr, DecidableEq

/-- What `fetch` does with a request: return a response of its own (preflight
or 401) or delegate to the MCP server (`env.__SERVER.handle`). -/
inductive FetchOutcome
  | response (r : HttpResponse)
  | delegated (server : McpServer)
deriving Repr, DecidableEq

/-- Headers of a directly returned response (`[]` when the request was
delegated to the MCP server). -/
def FetchOutcome.respHeaders : FetchOutcome → List (String × String)
  | .response r => r.headers
  | .delegated _ => []

/-- JavaScript falsiness of a nullable string: `null` and `""` are falsy. -/
def jsStringFalsy : Option String → Bool
  | none => true
  | some s => s = ""

/-- Token extraction (index.ts line 125):
`url.searchParams.get("token") ?? request.headers.get("X-Api-Token")`.
The nullish coalescing keeps a present-but-empty query value. -/
def extractToken (req : WRequest) : Option String :=
  req.queryToken <|> req.headerToken

/-- The worker `fetch` entry point (index.ts lines 118-134).  Takes the
environment, the request and the current value of the `env.__SERVER` cache;
returns the outcome, the new cache value, and whether `buildServer` ran. -/
def workerFetch (env : Env) (req : WRequest) (server0 : Option McpServer) :
    FetchOutcome × Option McpServer × Bool :=
  if req.method = "OPTIONS" then
    (.response { status := 204, body := none, headers := CORS_HEADERS }, server0, false)
  else
    let token := extractToken req
    if jsStringFalsy token = true ∨ token ≠ some env.HUB_TOKEN then
      (.response (json unauthorizedJson 401), server0, false)
    else
      match server0 with
      | some s => (.delegated s, some s, false)
      | none => (.delegated (buildServer env), some (buildServer env), true)

/-- Run a sequence of requests through `workerFetch`, threading the cache and
counting how many of them ran `buildServer`. -/
def runRequests (env : Env) : List WRequest → Option McpServer → Option McpServer × Nat
  | [], st => (st, 0)
  | r :: rest, st =>
      let step := workerFetch env r st
      let tail := runRequests env rest step.2.1
      (tail.1, (if step.2.2 then 1 else 0) + tail.2)

/-! ### Argument validation (zod schemas) -/

/-- Raw (untrusted) arguments of `generate_audio`; `none` is an absent field. -/
structure RawAudioArgs where
  text : Option String
  voiceId : Option String
  modelId : Option String
deriving Repr, DecidableEq

/-- Validated arguments of `generate_audio` after defaults. -/
structure AudioArgs where
  text : String
  voiceId : String
  modelId : String
deriving Repr, DecidableEq

/-- zod validation of `generate_audio` arguments (index.ts lines 50-54):
`text : string min 1 max 5000`, `voiceId : string`,
`modelId : string default "eleven_turbo_v2"`. -/
def validateAudio (raw : RawAudioArgs) : Except String AudioArgs :=
  match raw.text with
  | none => .error "text: Required"
  | some t =>
    if t.length < 1 then .error "text: String must contain at least 1 character(s)"
    else if 5000 < t.length then .error "text: String must contain at most 5000 character(s)"
    else
      match raw.voiceId with
      | none => .error "voiceId: Required"
      | some v => .ok { text := t, voiceId := v, modelId := raw.modelId.getD "eleven_turbo_v2" }

/-- Raw (untrusted) arguments of `generate_image`; a JSON number is a `Rat`
so the `.int()` check is meaningful. -/
structure RawImageArgs where
  prompt : Option String
  steps : Option Rat
deriving Repr, DecidableEq

/-- Validated arguments of `generate_image` after defaults. -/
structure ImageArgs where
  prompt : String
  steps : Int
deriving Repr, DecidableEq

/-- zod validation of `generate_image` arguments (index.ts lines 77-80):
`prompt : string min 1 max 800`, `steps : number int min 1 max 100 default 30`. -/
def validateImage (raw : RawImageArgs) : Except String ImageArgs :=
  match raw.prompt with
  | none => .error "prompt: Required"
  | some p =>
    if p.length < 1 then .error "prompt: String must contain at least 1 character(s)"
    else if 800 < p.length then .error "prompt: String must contain at most 800 character(s)"
    else
      match raw.steps with
      | none => .ok { prompt := p, steps := 30 }
      | some s =>
        if s.den ≠ 1 then .error "steps: Expected integer, received float"
        else if s < 1 then .error "steps: Number must be greater than or equal to 1"
        else if 100 < s then .error "steps: Number must be less than or equal to 100"
        else .ok { prompt := p, steps := s.num }

/-- Raw (untrusted) arguments of `translate_text`. -/
structure RawTranslateArgs where
  text : Option String
  targetLang : Option String
deriving Repr, DecidableEq

/-- Validated arguments of `translate_text`. -/
structure TranslateArgs where
  text : String
  targetLang : String
deriving Repr, DecidableEq

/-- zod validation of `translate_text` arguments (index.ts lines 99-102):
`text : string min 1 max 10000`, `targetLang : string length 2`. -/
def validateTranslate (raw : RawTranslateArgs) : Except String TranslateArgs :=
  match raw.text with
  | none => .error "text: Required"
  | some t =>
    if t.length < 1 then .error "text: String must contain at least 1 character(s)"
    else if 10000 < t.length then .error "text: String must contain at most 10000 character(s)"
    else
      match raw.targetLang with
      | none => .error "targetLang: Required"
      | some l =>
        if l.length ≠ 2 then .error "targetLang: String must contain exactly 2 character(s)"
        else .ok { text := t, targetLang := l }

/-! ### Tool handlers -/

/-- The body of an outbound downstream request: the JSON object literal the
handler stringifies, or raw text for the translator. -/
inductive OutboundBody
  | jsonAudio (text voiceId modelId : String)
  | jsonImage (prompt : String) (steps : Int)
  | rawText (t : String)
deriving Repr, DecidableEq

/-- One outbound HTTP call as a tool handler constructs it. -/
structure OutboundRequest where
  url : String
  method : String
  headers : List (String × String)
  body : OutboundBody
deriving Repr, DecidableEq

/-- The downstream response as the handlers read it: the status, the body as
text (`res.text()`), and the fields the handlers destructure from
`res.json()` (`none` when the JSON lacks the field). -/
structure DSResponse where
  status : Nat
  bodyText : String
  jsonAudioUrl : Option String := none
  jsonUrl : Option String := none
deriving Repr, DecidableEq

/-- The Fetch API `Response.ok` predicate: status in the range 200-299. -/
def DSResponse.ok (r : DSResponse) : Bool :=
  200 ≤ r.status && r.status ≤ 299

/-- One content block of a tool result, mirroring the loosely typed JS object
literals: a `type` tag plus the optional `text`, `url` and `mime_type` fields
actually set by the handlers. -/
structure ContentBlock where
  type : String
  text : Option String := none
  url : Option String := none
  mime_type : Option String := none
deriving Repr, DecidableEq

/-- A tool result: an ordered list of content blocks. -/
structure ToolResult where
  content : List ContentBlock
deriving Repr, DecidableEq

/-- The outbound request built by the `generate_audio` handler
(index.ts lines 56-60): POST JSON to `TTS_ENDPOINT?token=TTS_TOKEN`. -/
def generate_audio_request (env : Env) (a : AudioArgs) : OutboundRequest :=
  { url := env.TTS_ENDPOINT ++ "?token=" ++ env.TTS_TOKEN
    method := "POST"
    headers := [("Content-Type", "application/json")]
    body := .jsonAudio a.text a.voiceId a.modelId }

/-- The `generate_audio` handler's mapping from the downstream response to a
result (index.ts lines 61-70): non-ok throws the body text, ok yields a
confirmation text block and an `audio/mpeg` block with the JSON `audioUrl`. -/
def generate_audio_handle (_env : Env) (_a : AudioArgs) (res : DSResponse) :
    Except String ToolResult :=
  if ¬ res.ok then .error res.bodyText
  else .ok { content :=
    [{ type := "text", text := some "Audio created successfully." },
     { type := "audio", url := res.jsonAudioUrl, mime_type := some "audio/mpeg" }] }

/-- The outbound request built by the `generate_image` handler
(index.ts lines 82-88): POST JSON to `IMAGE_ENDPOINT` with a bearer header. -/
def generate_image_request (env : Env) (a : ImageArgs) : OutboundRequest :=
  { url := env.IMAGE_ENDPOINT
    method := "POST"
    headers := [("Authorization", "Bearer " ++ env.IMAGE_KEY),
                ("Content-Type", "application/json")]
    body := .jsonImage a.prompt a.steps }

/-- The `generate_image` handler's mapping from the downstream response to a
result (index.ts lines 90-92): non-ok throws the body text, ok yields a
single image block with the JSON `url` (and no mime type). -/
def generate_image_handle (_env : Env) (_a : ImageArgs) (res : DSResponse) :
    Except String ToolResult :=
  if ¬ res.ok then .error res.bodyText
  else .ok { content := [{ type := "image", url := res.jsonUrl }] }

/-- The outbound request built by the `translate_text` handler
(index.ts lines 104-107): POST raw text to `TRANSLATE_ENDPOINT?lang=...`. -/
def translate_text_request (env : Env) (a : TranslateArgs) : OutboundRequest :=
  { url := env.TRANSLATE_ENDPOINT ++ "?lang=" ++ a.targetLang
    method := "POST"
    headers := []
    body := .rawText a.text }

/-- The `translate_text` handler's mapping from the downstream response to a
result (index.ts lines 108-109): non-ok throws the body text, ok yields a
single text block holding the response text. -/
def translate_text_handle (_env : Env) (_a : TranslateArgs) (res : DSResponse) :
    Except String ToolResult :=
  if ¬ res.ok then .error res.bodyText
  else .ok { content := [{ type := "text", text := some res.bodyText }] }

/-! ### Dispatch: validate, then call the handler -/

deriving instance DecidableEq for Except

/-- Trace of one tool call: the outbound network calls it performed and its
result (an `Except.error` is a tool-call failure). -/
structure CallTrace where
  networkCalls : List OutboundRequest
  result : Except String ToolResult
deriving Repr, DecidableEq

/-- Full `generate_audio` call: validate, then build the request, send it to
the downstream (given as a function), and map the response. -/
def call_generate_audio (env : Env) (raw : RawAudioArgs)
    (downstream : OutboundRequest → DSResponse) : CallTrace :=
  match validateAudio raw with
  | .error e => { networkCalls := [], result := .error e }
  | .ok a =>
    let req := generate_audio_request env a
    { networkCalls := [req], result := generate_audio_handle env a (downstream req) }

/-- Full `generate_image` call: validate, then build the request, send it to
the downstream, and map the response. -/
def call_generate_image (env : Env) (raw : RawImageArgs)
    (downstream : OutboundRequest → DSResponse) : CallTrace :=
  match validateImage raw with
  | .error e => { networkCalls := [], result := .error e }
  | .ok a =>
    let req := generate_image_request env a
    { networkCalls := [req], result := generate_image_handle env a (downstream req) }

/-- Full `translate_text` call: validate, then build the request, send it to
the downstream, and map the response. -/
def call_translate_text (env : Env) (raw : RawTranslateArgs)
    (downstream : OutboundRequest → DSResponse) : CallTrace :=
  match validateTranslate raw with
  | .error e => { networkCalls := [], result := .error e }
  | .ok a =>
    let req := translate_text_request env a
    { networkCalls := [req], result := translate_text_handle env a (downstream req) }

/-! ### Claim-level predicates and concrete fixtures -/

/-- Schema violation for `generate_audio` as enumerated by the spec: a
required field missing, or `text` outside 1-5000 characters. -/
def badAudioArgs (r : RawAudioArgs) : Prop :=
  r.text = none ∨ r.voiceId = none ∨
    ∃ t, r.text = some t ∧ (t.length < 1 ∨ 5000 < t.length)

/-- Schema violation for `generate_image`: required field missing, `prompt`
outside 1-800 characters, or `steps` outside the range 1-100. -/
def badImageArgs (r : RawImageArgs) : Prop :=
  r.prompt = none ∨ (∃ p, r.prompt = some p ∧ (p.length < 1 ∨ 800 < p.length)) ∨
    ∃ s, r.steps = some s ∧ (s < 1 ∨ 100 < s)

/-- Schema violation for `translate_text`: required field missing, `text`
outside 1-10000 characters, or `targetLang` not exactly 2 characters. -/
def badTranslateArgs (r : RawTranslateArgs) : Prop :=
  r.text = none ∨ r.targetLang = none ∨
    (∃ t, r.text = some t ∧ (t.length < 1 ∨ 10000 < t.length)) ∨
    ∃ l, r.targetLang = some l ∧ l.length ≠ 2

/-- Well-formedness of one content block as the handlers actually build them:
a text block with literal text, an `audio/mpeg` audio block with a URL, or an
image block with a URL and no media type. -/
def blockWF (b : ContentBlock) : Prop :=
  (b.type = "text" ∧ b.text.isSome = true) ∨
  (b.type = "audio" ∧ b.url.isSome = true ∧ b.mime_type = some "audio/mpeg") ∨
  (b.type = "image" ∧ b.url.isSome = true ∧ b.mime_type = none)

/-- A concrete environment used by the closed example theorems. -/
def envEx : Env :=
  { HUB_TOKEN := "hub-secret"
    TTS_ENDPOINT := "https://tts.example/"
    TTS_TOKEN := "tts-secret"
    IMAGE_ENDPOINT := "https://img.example/"
    IMAGE_KEY := "img-key"
    TRANSLATE_ENDPOINT := "https://tr.example/" }

/-- A concrete failing downstream response: HTTP 500 with body "boom". -/
def dsBoom : DSResponse := { status := 500, bodyText := "boom" }

/-- A concrete successful TTS downstream response. -/
def dsAudioOk : DSResponse :=
  { status := 200, bodyText := "", jsonAudioUrl := some "https://x/a.mp3" }

/-- A concrete successful image downstream response. -/
def dsImageOk : DSResponse :=
  { status := 200, bodyText := "", jsonUrl := some "https://x/i.png" }

/-- A tool-call outcome is a failure when it is an `Except.error`. -/
def isFailure {α : Type} : Except String α → Bool
  | .error _ => true
  | .ok _ => false

/-- Concrete well-formed raw arguments for `generate_audio` with `modelId`
omitted. -/
def rawAudioEx : RawAudioArgs :=
  { text := some "hello", voiceId := some "v1", modelId := none }

/-! ### Helper lemmas -/

lemma validateAudio_bad (r : RawAudioArgs) (h : badAudioArgs r) :
    isFailure (validateAudio r) = true := by
  obtain ⟨text, voiceId, modelId⟩ := r
  cases text with
  | none => rfl
  | some t =>
    have hh : t.length < 1 ∨ 5000 < t.length ∨ voiceId = none := by
      rcases h with h | h | ⟨t', ht', hl⟩
      · exact absurd h (by simp)
      · exact Or.inr (Or.inr h)
      · cases ht'
        rcases hl with hl | hl
        · exact Or.inl hl
        · exact Or.inr (Or.inl hl)
    unfold validateAudio
    dsimp only
    split
    · rfl
    · split
      · rfl
      · rename_i h1 h2
        rcases hh with hx | hx | hx
        · exact absurd hx h1
        · exact absurd hx h2
        · rw [hx]; rfl

lemma validateImage_bad (r : RawImageArgs) (h : badImageArgs r) :
    isFailure (validateImage r) = true := by
  obtain ⟨prompt, steps⟩ := r
  cases prompt with
  | none => rfl
  | some p =>
    have hh : p.length < 1 ∨ 800 < p.length ∨ ∃ s, steps = some s ∧ (s < 1 ∨ 100 < s) := by
      rcases h with h | ⟨p', hp', hl⟩ | hs
      · exact absurd h (by simp)
      · cases hp'
        rcases hl with hl | hl
        · exact Or.inl hl
        · exact Or.inr (Or.inl hl)
      · exact Or.inr (Or.inr hs)
    unfold validateImage
    dsimp only
    split
    · rfl
    · split
      · rfl
      · rename_i h1 h2
        rcases hh with hx | hx | ⟨s, hs, hrange⟩
        · exact absurd hx h1
        · exact absurd hx h2
        · rw [hs]
          dsimp only
          by_cases hden : s.den ≠ 1
          · rw [if_pos hden]; rfl
          · rw [if_neg hden]
            rcases hrange with hr | hr
            · rw [if_pos hr]; rfl
            · rw [if_neg (by intro hc; exact absurd hr (by push_neg; linarith)), if_pos hr]; rfl

lemma validateTranslate_bad (r : RawTranslateArgs) (h : badTranslateArgs r) :
    isFailure (validateTranslate r) = true := by
  obtain ⟨text, targetLang⟩ := r
  cases text with
  | none => rfl
  | some t =>
    have hh : t.length < 1 ∨ 10000 < t.length ∨ targetLang = none ∨
        ∃ l, targetLang = some l ∧ l.length ≠ 2 := by
      rcases h with h | h | ⟨t', ht', hl⟩ | hl
      · exact absurd h (by simp)
      · exact Or.inr (Or.inr (Or.inl h))
      · cases ht'
        rcases hl with hl | hl
        · exact Or.inl hl
        · exact Or.inr (Or.inl hl)
      · exact Or.inr (Or.inr (Or.inr hl))
    unfold validateTranslate
    dsimp only
    split
    · rfl
    · split
      · rfl
      · rename_i h1 h2
        rcases hh with hx | hx | hx | ⟨l, hl, hlen⟩
        · exact absurd hx h1
        · exact absurd hx h2
        · rw [hx]; rfl
        · rw [hl]
          dsimp only
          rw [if_pos hlen]; rfl

lemma workerFetch_cached (env : Env) (req : WRequest) (s : McpServer) :
    (workerFetch env req (some s)).2 = (some s, false) := by
  simp only [workerFetch]
  split
  · rfl
  · split <;> rfl

lemma workerFetch_uncached (env : Env) (req : WRequest) :
    (workerFetch env req none).2 = (none, false) ∨
    (workerFetch env req none).2 = (some (buildServer env), true) := by
  simp only [workerFetch]
  split
  · exact Or.inl rfl
  · split
    · exact Or.inl rfl
    · exact Or.inr rfl

lemma runRequests_cached (env : Env) (reqs : List WRequest) (s : McpServer) :
    runRequests env reqs (some s) = (some s, 0) := by
  induction reqs with
  | nil => rfl
  | cons r rest ih =>
    simp only [runRequests]
    rw [(workerFetch_cached env r s :
          (workerFetch env r (some s)).2 = (some s, false))]
    simp [ih]

/-! ### Claim theorems -/

/-- Claim C1: every non-OPTIONS request that lacks both the `token` query
parameter and the `X-Api-Token` header, or whose extracted token differs from
the configured hub secret, receives the HTTP 401 response with body
`\x7b"success":false,"error":"Unauthorized"\x7d` directly from the auth gate:
the outcome is a plain response (never a delegation to the MCP server, so no
tool handler and no downstream HTTP call can run), the `__SERVER` cache is
left unchanged, and `buildServer` does not run. -/
theorem auth_gate_unauthorized_shortcircuit (env : Env) (req : WRequest)
    (server0 : Option McpServer) (hm : req.method ≠ "OPTIONS")
    (h : extractToken req = none ∨ ∃ t, extractToken req = some t ∧ t ≠ env.HUB_TOKEN) :
    workerFetch env req server0 =
      (.response (json unauthorizedJson 401), server0, false) := by
  have hcond : jsStringFalsy (extractToken req) = true ∨
      extractToken req ≠ some env.HUB_TOKEN := by
    rcases h with h | ⟨t, ht, hne⟩
    · rw [h]; exact Or.inl rfl
    · right; rw [ht]; simp [hne]
  simp only [workerFetch]
  rw [if_neg hm, if_pos hcond]

theorem auth_gate_unauthorized_shortcircuit_witness :
    workerFetch envEx { method := "GET", queryToken := none, headerToken := none } none =
      (.response (json unauthorizedJson 401), none, false) :=
  auth_gate_unauthorized_shortcircuit envEx
    { method := "GET", queryToken := none, headerToken := none } none
    (by decide) (Or.inl rfl)

/-- Claim C10: a non-OPTIONS request with a present-but-empty `token` query
parameter is rejected with the 401 Unauthorized response even when its
`X-Api-Token` header equals the hub secret: the nullish coalescing selects
the empty query value, which then fails the truthiness check. -/
theorem empty_query_token_rejected (env : Env) (req : WRequest)
    (server0 : Option McpServer) (hm : req.method ≠ "OPTIONS")
    (hq : req.queryToken = some "") (hh : req.headerToken = some env.HUB_TOKEN) :
    workerFetch env req server0 =
      (.response (json unauthorizedJson 401), server0, false) := by
  have htok : extractToken req = some "" := by
    unfold extractToken
    rw [hq]
    rfl
  simp only [workerFetch]
  rw [if_neg hm, if_pos (Or.inl (by rw [htok]; rfl))]

theorem empty_query_token_rejected_witness :
    workerFetch envEx
        { method := "GET", queryToken := some "", headerToken := some "hub-secret" } none =
      (.response (json unauthorizedJson 401), none, false) :=
  empty_query_token_rejected envEx
    { method := "GET", queryToken := some "", headerToken := some "hub-secret" } none
    (by decide) rfl rfl

/-- Claim C6 (counterexample): the preflight response to a concrete OPTIONS
request carries exactly four headers, not five as the claim counts them. -/
theorem options_headers_not_five :
    (FetchOutcome.respHeaders (workerFetch envEx
        { method := "OPTIONS", queryToken := none, headerToken := none } none).1).length = 4 ∧
    ¬ (FetchOutcome.respHeaders (workerFetch envEx
        { method := "OPTIONS", queryToken := none, headerToken := none } none).1).length = 5 := by
  decide

/-- Claim C6 (amended): every OPTIONS request, whatever tokens it carries and
whatever the configured secret, receives HTTP 204 with no body and exactly
the four CORS headers of the `CORS_HEADERS` constant; the secret check is
bypassed and the server cache untouched. -/
theorem options_preflight_response (env : Env) (req : WRequest)
    (server0 : Option McpServer) (hm : req.method = "OPTIONS") :
    workerFetch env req server0 =
      (.response
        { status := 204
          body := none
          headers := [("Access-Control-Allow-Origin", "*"),
                      ("Access-Control-Allow-Methods", "GET, POST, OPTIONS"),
                      ("Access-Control-Allow-Headers", "Content-Type, X-Api-Token"),
                      ("Access-Control-Max-Age", "86400")] },
       server0, false) := by
  simp only [workerFetch, CORS_HEADERS]
  rw [if_pos hm]

theorem options_preflight_response_witness :
    workerFetch envEx
        { method := "OPTIONS", queryToken := some "", headerToken := some "wrong" } none =
      (.response
        { status := 204
          body := none
          headers := [("Access-Control-Allow-Origin", "*"),
                      ("Access-Control-Allow-Methods", "GET, POST, OPTIONS"),
                      ("Access-Control-Allow-Headers", "Content-Type, X-Api-Token"),
                      ("Access-Control-Max-Age", "86400")] },
       none, false) :=
  options_preflight_response envEx
    { method := "OPTIONS", queryToken := some "", headerToken := some "wrong" } none rfl

/-- Claim C8: the MCP server is cached per process. Once the cache holds a
server, every request leaves it unchanged and never rebuilds; the first
authenticated request on an empty cache builds it (construct-if-absent); any
request sequence from an empty cache performs at most one construction; and
construction is deterministic, always registering the same three tools. -/
theorem registry_built_lazily_once :
    (∀ (env : Env) (req : WRequest) (s : McpServer),
       (workerFetch env req (some s)).2 = (some s, false)) ∧
    (∀ (env : Env) (req : WRequest), req.method ≠ "OPTIONS" →
       extractToken req = some env.HUB_TOKEN → env.HUB_TOKEN ≠ "" →
       workerFetch env req none =
         (.delegated (buildServer env), some (buildServer env), true)) ∧
    (∀ (env : Env) (reqs : List WRequest), (runRequests env reqs none).2 ≤ 1) ∧
    (∀ env1 env2 : Env, buildServer env1 = buildServer env2) ∧
    (∀ env : Env, (buildServer env).tools.map ToolDef.name =
       ["generate_audio", "generate_image", "translate_text"]) := by
  refine ⟨workerFetch_cached, ?_, ?_, fun _ _ => rfl, fun _ => rfl⟩
  · intro env req hm htok hne
    have hno : ¬ (jsStringFalsy (extractToken req) = true ∨
        extractToken req ≠ some env.HUB_TOKEN) := by
      rintro (h1 | h2)
      · rw [htok] at h1
        simp only [jsStringFalsy, decide_eq_true_eq] at h1
        exact hne h1
      · exact h2 htok
    simp only [workerFetch]
    rw [if_neg hm, if_neg hno]
  · intro env reqs
    induction reqs with
    | nil => simp [runRequests]
    | cons r rest ih =>
      simp only [runRequests]
      rcases workerFetch_uncached env r with hf | hf
      · rw [hf]
        simpa using ih
      · rw [hf]
        simp [runRequests_cached]

theorem registry_built_lazily_once_witness :
    workerFetch envEx
        { method := "GET", queryToken := some "hub-secret", headerToken := none } none =
      (.delegated (buildServer envEx), some (buildServer envEx), true) :=
  registry_built_lazily_once.2.1 envEx
    { method := "GET", queryToken := some "hub-secret", headerToken := none }
    (by decide) rfl (by decide)

/-- Claim C2: for each of the three tools, raw arguments that violate the
declared schema (a required field missing, a string outside its min/max
length, `steps` outside 1-100, or `targetLang` not exactly 2 characters)
make the call fail at validation: the result is a failure and the recorded
list of outbound network calls is empty, so the handler never ran. -/
theorem validation_rejects_before_network :
    (∀ (env : Env) (raw : RawAudioArgs) (ds : OutboundRequest → DSResponse),
       badAudioArgs raw →
       (call_generate_audio env raw ds).networkCalls = [] ∧
       isFailure (call_generate_audio env raw ds).result = true) ∧
    (∀ (env : Env) (raw : RawImageArgs) (ds : OutboundRequest → DSResponse),
       badImageArgs raw →
       (call_generate_image env raw ds).networkCalls = [] ∧
       isFailure (call_generate_image env raw ds).result = true) ∧
    (∀ (env : Env) (raw : RawTranslateArgs) (ds : OutboundRequest → DSResponse),
       badTranslateArgs raw →
       (call_translate_text env raw ds).networkCalls = [] ∧
       isFailure (call_translate_text env raw ds).result = true) := by
  refine ⟨?_, ?_, ?_⟩ <;> intro env raw ds h
  · have hv := validateAudio_bad raw h
    unfold call_generate_audio
    cases hval : validateAudio raw with
    | error e => exact ⟨rfl, rfl⟩
    | ok a => rw [hval] at hv; exact absurd hv (by simp [isFailure])
  · have hv := validateImage_bad raw h
    unfold call_generate_image
    cases hval : validateImage raw with
    | error e => exact ⟨rfl, rfl⟩
    | ok a => rw [hval] at hv; exact absurd hv (by simp [isFailure])
  · have hv := validateTranslate_bad raw h
    unfold call_translate_text
    cases hval : validateTranslate raw with
    | error e => exact ⟨rfl, rfl⟩
    | ok a => rw [hval] at hv; exact absurd hv (by simp [isFailure])

theorem validation_rejects_before_network_witness :
    (call_generate_image envEx { prompt := some "a cat", steps := some 150 }
        (fun _ => dsBoom)).networkCalls = [] ∧
    isFailure (call_generate_image envEx { prompt := some "a cat", steps := some 150 }
        (fun _ => dsBoom)).result = true :=
  validation_rejects_before_network.2.1 envEx
    { prompt := some "a cat", steps := some 150 } (fun _ => dsBoom)
    (Or.inr (Or.inr ⟨150, rfl, Or.inr (by norm_num)⟩))

/-- Claim C3: for each of the three tools, when the downstream response of a
validated call has a non-2xx status, the tool call fails and the failure
message is the downstream response body verbatim. -/
theorem downstream_failure_body_verbatim :
    (∀ (env : Env) (raw : RawAudioArgs) (ds : OutboundRequest → DSResponse) (a : AudioArgs),
       validateAudio raw = .ok a →
       (ds (generate_audio_request env a)).ok = false →
       (call_generate_audio env raw ds).result =
         .error (ds (generate_audio_request env a)).bodyText) ∧
    (∀ (env : Env) (raw : RawImageArgs) (ds : OutboundRequest → DSResponse) (a : ImageArgs),
       validateImage raw = .ok a →
       (ds (generate_image_request env a)).ok = false →
       (call_generate_image env raw ds).result =
         .error (ds (generate_image_request env a)).bodyText) ∧
    (∀ (env : Env) (raw : RawTranslateArgs) (ds : OutboundRequest → DSResponse)
       (a : TranslateArgs),
       validateTranslate raw = .ok a →
       (ds (translate_text_request env a)).ok = false →
       (call_translate_text env raw ds).result =
         .error (ds (translate_text_request env a)).bodyText) := by
  refine ⟨?_, ?_, ?_⟩
  · intro env raw ds a hval hok
    unfold call_generate_audio
    rw [hval]
    simp [generate_audio_handle, hok]
  · intro env raw ds a hval hok
    unfold call_generate_image
    rw [hval]
    simp [generate_image_handle, hok]
  · intro env raw ds a hval hok
    unfold call_translate_text
    rw [hval]
    simp [translate_text_handle, hok]

theorem downstream_failure_body_verbatim_witness :
    (call_generate_audio envEx rawAudioEx (fun _ => dsBoom)).result = .error "boom" :=
  downstream_failure_body_verbatim.1 envEx rawAudioEx (fun _ => dsBoom)
    { text := "hello", voiceId := "v1", modelId := "eleven_turbo_v2" }
    (by decide) (by decide)

/-- Claim C4: when the TTS downstream answers HTTP 200 with JSON carrying an
`audioUrl`, the `generate_audio` result is exactly two blocks in order: the
fixed confirmation text block, then an audio block with that URL and MIME
type `audio/mpeg`. -/
theorem audio_success_two_blocks (env : Env) (a : AudioArgs) (res : DSResponse)
    (u : String) (h200 : res.status = 200) (hurl : res.jsonAudioUrl = some u) :
    generate_audio_handle env a res =
      .ok { content :=
        [{ type := "text", text := some "Audio created successfully.",
           url := none, mime_type := none },
         { type := "audio", text := none, url := some u,
           mime_type := some "audio/mpeg" }] } := by
  have hok : res.ok = true := by
    unfold DSResponse.ok
    rw [h200]
    decide
  simp [generate_audio_handle, hok, hurl]

theorem audio_success_two_blocks_witness :
    generate_audio_handle envEx
        { text := "hello", voiceId := "v1", modelId := "eleven_turbo_v2" } dsAudioOk =
      .ok { content :=
        [{ type := "text", text := some "Audio created successfully.",
           url := none, mime_type := none },
         { type := "audio", text := none, url := some "https://x/a.mp3",
           mime_type := some "audio/mpeg" }] } :=
  audio_success_two_blocks envEx
    { text := "hello", voiceId := "v1", modelId := "eleven_turbo_v2" }
    dsAudioOk "https://x/a.mp3" rfl rfl

/-- Claim C5: omitted optional fields receive their declared defaults before
the handler runs: `generate_audio` without `modelId` validates to
`modelId = "eleven_turbo_v2"` and puts that value in the downstream JSON
body, and `generate_image` without `steps` validates to `steps = 30` and
puts 30 in the downstream JSON body. -/
theorem omitted_defaults_applied :
    (∀ (env : Env) (t v : String), 1 ≤ t.length → t.length ≤ 5000 →
       validateAudio { text := some t, voiceId := some v, modelId := none } =
         .ok { text := t, voiceId := v, modelId := "eleven_turbo_v2" } ∧
       (generate_audio_request env
          { text := t, voiceId := v, modelId := "eleven_turbo_v2" }).body =
         .jsonAudio t v "eleven_turbo_v2") ∧
    (∀ (env : Env) (p : String), 1 ≤ p.length → p.length ≤ 800 →
       validateImage { prompt := some p, steps := none } =
         .ok { prompt := p, steps := 30 } ∧
       (generate_image_request env { prompt := p, steps := 30 }).body =
         .jsonImage p 30) := by
  constructor
  · intro env t v h1 h2
    refine ⟨?_, rfl⟩
    unfold validateAudio
    dsimp only
    rw [if_neg (by omega), if_neg (by omega)]
    rfl
  · intro env p h1 h2
    refine ⟨?_, rfl⟩
    unfold validateImage
    dsimp only
    rw [if_neg (by omega), if_neg (by omega)]

theorem omitted_defaults_applied_witness :
    (validateAudio { text := some "hi", voiceId := some "v1", modelId := none } =
       .ok { text := "hi", voiceId := "v1", modelId := "eleven_turbo_v2" } ∧
     (generate_audio_request envEx
        { text := "hi", voiceId := "v1", modelId := "eleven_turbo_v2" }).body =
       .jsonAudio "hi" "v1" "eleven_turbo_v2") ∧
    (validateImage { prompt := some "cat", steps := none } =
       .ok { prompt := "cat", steps := 30 } ∧
     (generate_image_request envEx { prompt := "cat", steps := 30 }).body =
       .jsonImage "cat" 30) :=
  ⟨omitted_defaults_applied.1 envEx "hi" "v1" (by decide) (by decide),
   omitted_defaults_applied.2 envEx "cat" (by decide) (by decide)⟩

/-- Claim C7 (counterexample): a successful `generate_image` call yields an
image content block that carries no media type at all, refuting the claim
that every image-variant block carries both a URL and a MIME type. -/
theorem image_block_missing_mime :
    generate_image_handle envEx { prompt := "a cat", steps := 30 } dsImageOk =
      .ok { content := [{ type := "image", text := none,
                          url := some "https://x/i.png", mime_type := none }] } ∧
    ({ type := "image", text := none, url := some "https://x/i.png",
       mime_type := none } : ContentBlock).mime_type.isSome = false := by
  exact ⟨rfl, rfl⟩

/-- Claim C7 (amended): every content block produced by the three tool
handlers (for downstream responses of the documented shape) is a text block
with literal text, an audio block with a URL and MIME type `audio/mpeg`, or
an image block with a URL and no media type. -/
theorem content_blocks_well_formed :
    (∀ (env : Env) (a : AudioArgs) (res : DSResponse) (r : ToolResult),
       res.jsonAudioUrl.isSome = true →
       generate_audio_handle env a res = .ok r → ∀ b ∈ r.content, blockWF b) ∧
    (∀ (env : Env) (a : ImageArgs) (res : DSResponse) (r : ToolResult),
       res.jsonUrl.isSome = true →
       generate_image_handle env a res = .ok r → ∀ b ∈ r.content, blockWF b) ∧
    (∀ (env : Env) (a : TranslateArgs) (res : DSResponse) (r : ToolResult),
       translate_text_handle env a res = .ok r → ∀ b ∈ r.content, blockWF b) := by
  refine ⟨?_, ?_, ?_⟩
  · intro env a res r hsome hr b hb
    unfold generate_audio_handle at hr
    by_cases hok : res.ok = true
    · rw [if_neg (by simp [hok])] at hr
      injection hr with h'
      subst h'
      simp only [List.mem_cons, List.not_mem_nil, or_false] at hb
      rcases hb with rfl | rfl
      · exact Or.inl ⟨rfl, rfl⟩
      · exact Or.inr (Or.inl ⟨rfl, hsome, rfl⟩)
    · rw [if_pos hok] at hr
      exact Except.noConfusion hr
  · intro env a res r hsome hr b hb
    unfold generate_image_handle at hr
    by_cases hok : res.ok = true
    · rw [if_neg (by simp [hok])] at hr
      injection hr with h'
      subst h'
      simp only [List.mem_cons, List.not_mem_nil, or_false] at hb
      rcases hb with rfl
      exact Or.inr (Or.inr ⟨rfl, hsome, rfl⟩)
    · rw [if_pos hok] at hr
      exact Except.noConfusion hr
  · intro env a res r hr b hb
    unfold translate_text_handle at hr
    by_cases hok : res.ok = true
    · rw [if_neg (by simp [hok])] at hr
      injection hr with h'
      subst h'
      simp only [List.mem_cons, List.not_mem_nil, or_false] at hb
      rcases hb with rfl
      exact Or.inl ⟨rfl, rfl⟩
    · rw [if_pos hok] at hr
      exact Except.noConfusion hr

theorem content_blocks_well_formed_witness :
    blockWF { type := "audio", text := none, url := some "https://x/a.mp3",
              mime_type := some "audio/mpeg" } :=
  content_blocks_well_formed.1 envEx
    { text := "hi", voiceId := "v1", modelId := "eleven_turbo_v2" } dsAudioOk
    { content :=
        [{ type := "text", text := some "Audio created successfully.",
           url := none, mime_type := none },
         { type := "audio", text := none, url := some "https://x/a.mp3",
           mime_type := some "audio/mpeg" }] }
    (by decide) (by decide)
    { type := "audio", text := none, url := some "https://x/a.mp3",
      mime_type := some "audio/mpeg" }
    (by decide)

/-- Claim C9: the tool results are built only from fixed literals and fields
of the downstream response, never from configured credentials: two runs of
any handler that differ only in the environment (hence in the TTS token,
image key or hub secret) but see identical downstream responses produce
identical results. -/
theorem toolresult_credential_independent :
    (∀ (env1 env2 : Env) (a : AudioArgs) (res : DSResponse),
       generate_audio_handle env1 a res = generate_audio_handle env2 a res) ∧
    (∀ (env1 env2 : Env) (a : ImageArgs) (res : DSResponse),
       generate_image_handle env1 a res = generate_image_handle env2 a res) ∧
    (∀ (env1 env2 : Env) (a : TranslateArgs) (res : DSResponse),
       translate_text_handle env1 a res = translate_text_handle env2 a res) :=
  ⟨fun _ _ _ _ => rfl, fun _ _ _ _ => rfl, fun _ _ _ _ => rfl⟩

end ToolHub
